import Mathlib

/-!
Shallow embedding of the drowsiness-detection core
(src/utils/drowsinessDetection.ts and src/hooks/useMediaPipe.ts).

Conventions of the embedding:
* JavaScript numbers are modelled as real numbers.
* A landmark frame is a total map from indices to optional points: a missing
  array slot, a null entry, or an entry with non-numeric coordinates are all
  modelled as none (exactly the cases where the source getLM returns null).
* The NaN sentinel of the metric calculators is modelled as Option.none;
  a some value is a finite computed metric.  Every place the source asks
  Number.isFinite or lets NaN poison a comparison is modelled by matching on
  the Option.
* The module-level mutable calibration variables (earBaseline, marBaseline,
  calibrationSamples) become an explicit CalibrationState record; the closure
  variables of initializeMediaPipe (calibrating, calibrationStart) and the two
  refs (closedEyeStartRef, openMouthStartRef) become a DetectorState record.
  onResults is the per-frame step function from state and inputs (the frame,
  the two clock readings) to the new state and the emitted detection triple.
-/

/-- A landmark point: normalized x, y coordinates, with an optional z that the
2D formulas ignore (dist2D only reads x and y, as in the source). -/
structure Pt where
  x : ℝ
  y : ℝ
  z : Option ℝ := none

/-- A frame of face landmarks: index to optional point.  none models a
missing / null / non-numeric entry. -/
def FaceLandmarks : Type := ℕ → Option Pt

-- Landmark index sets (verbatim from the source).
def LEFT_EYE_POINTS : List ℕ := [33, 160, 158, 133, 153, 144]
def RIGHT_EYE_POINTS : List ℕ := [263, 387, 385, 362, 380, 373]
def MOUTH_POINTS : List ℕ := [13, 14, 78, 308, 82, 312, 87, 317]

-- Static thresholds and calibration multipliers (source constants).
noncomputable def EAR_THRESHOLD : ℝ := 41 / 100
noncomputable def MAR_THRESHOLD : ℝ := 80 / 100
noncomputable def EAR_CALIBRATION_FACTOR : ℝ := 75 / 100
noncomputable def MAR_CALIBRATION_FACTOR : ℝ := 140 / 100

-- Timing constants used by the hook (useMediaPipe.ts).  The sustained
-- duration is the operative literal 3000 ms from lines 90-91 (the in-source
-- comment says 1 second; the code uses 3000).
noncomputable def CALIBRATION_WINDOW_MS : ℝ := 2000
noncomputable def SUSTAINED_DURATION_MS : ℝ := 3000

/-- dist2D from the source: Math.hypot of the coordinate differences,
z ignored. -/
noncomputable def dist2D (a b : Pt) : ℝ :=
  Real.sqrt ((a.x - b.x) ^ 2 + (a.y - b.y) ^ 2)

/-- getLM from the source: look an index up in the frame; null / missing /
non-numeric entries are none. -/
def getLM (landmarks : FaceLandmarks) (idx : ℕ) : Option Pt :=
  landmarks idx

/-- The EAR implementation (source function with the same name):
EAR = (dist(p2,p6) + dist(p3,p5)) / (2 * dist(p1,p4)), with the NaN sentinel
(none) when fewer than 6 indices are given, when any referenced landmark is
missing, or when the horizontal reference distance is exactly zero. -/
noncomputable def _calcEARFromEye (landmarks : FaceLandmarks) (eyeIndices : List ℕ) : Option ℝ :=
  if eyeIndices.length < 6 then none
  else if (eyeIndices.map (getLM landmarks)).any Option.isNone then none
  else match eyeIndices.map (getLM landmarks) with
  | some p1 :: some p2 :: some p3 :: some p4 :: some p5 :: some p6 :: _ =>
    if dist2D p1 p4 = 0 then none
    else some ((dist2D p2 p6 + dist2D p3 p5) / (2 * dist2D p1 p4))
  | _ => none

/-- The MAR implementation (source function with the same name): average of
three vertical distances divided by the mouth width dist(lCorner, r1), with
the same NaN sentinel policy.  The positional destructuring
[u1, u2, l1, r1, r2, l2b, l3b, lCorner] follows the source exactly. -/
noncomputable def _calcMARFromMouth (landmarks : FaceLandmarks) (mouthIndices : List ℕ) : Option ℝ :=
  if mouthIndices.length < 8 then none
  else if (mouthIndices.map (getLM landmarks)).any Option.isNone then none
  else match mouthIndices.map (getLM landmarks) with
  | some u1 :: some u2 :: some l1 :: some r1 :: some _r2 :: some l2b :: some l3b :: some lCorner :: _ =>
    if dist2D lCorner r1 = 0 then none
    else some (((dist2D u1 l1 + dist2D u2 l2b + dist2D u1 l3b) / 3) / dist2D lCorner r1)
  | _ => none

/-- Public wrapper calculateEAR (delegates to the implementation). -/
noncomputable def calculateEAR (landmarks : FaceLandmarks) (eyeIndices : List ℕ) : Option ℝ :=
  _calcEARFromEye landmarks eyeIndices

/-- Public wrapper calculateMAR (delegates to the implementation). -/
noncomputable def calculateMAR (landmarks : FaceLandmarks) (mouthIndices : List ℕ) : Option ℝ :=
  _calcMARFromMouth landmarks mouthIndices

/-- The calibration state: the module-level mutable variables earBaseline,
marBaseline, calibrationSamples of the source, made an explicit record. -/
structure CalibrationState where
  earBaseline : Option ℝ
  marBaseline : Option ℝ
  calibrationSamples : ℕ

/-- The average of the two per-eye EARs, as computed by accumulateCalibration
and the detection phase of onResults: (leftEAR + rightEAR) / 2, NaN (none)
as soon as either eye fails. -/
noncomputable def avgEAROf (landmarks : FaceLandmarks) : Option ℝ :=
  match _calcEARFromEye landmarks LEFT_EYE_POINTS,
        _calcEARFromEye landmarks RIGHT_EYE_POINTS with
  | some l, some r => some ((l + r) / 2)
  | _, _ => none

/-- accumulateCalibration from the source: compute the averaged EAR and the
MAR; if either is non-finite the call is a no-op; otherwise increment the
sample count and update each baseline by the incremental running mean
(first sample sets the baseline directly). -/
noncomputable def accumulateCalibration (landmarks : FaceLandmarks) (s : CalibrationState) :
    CalibrationState :=
  match avgEAROf landmarks, _calcMARFromMouth landmarks MOUTH_POINTS with
  | some ear, some mar =>
    { earBaseline := some (match s.earBaseline with
        | none => ear
        | some b => b + (ear - b) / ((s.calibrationSamples : ℝ) + 1))
      marBaseline := some (match s.marBaseline with
        | none => mar
        | some b => b + (mar - b) / ((s.calibrationSamples : ℝ) + 1))
      calibrationSamples := s.calibrationSamples + 1 }
  | _, _ => s

/-- resetCalibration from the source: both baselines cleared, sample count
zero. -/
def resetCalibration : CalibrationState :=
  { earBaseline := none, marBaseline := none, calibrationSamples := 0 }

/-- getCurrentEARThreshold from the source: the calibrated threshold
earBaseline * EAR_CALIBRATION_FACTOR when the baseline is set and at least
5 samples were accumulated, else the static fallback. -/
noncomputable def getCurrentEARThreshold (s : CalibrationState) : ℝ :=
  match s.earBaseline with
  | some b => if 5 ≤ s.calibrationSamples then b * EAR_CALIBRATION_FACTOR else EAR_THRESHOLD
  | none => EAR_THRESHOLD

/-- getCurrentMARThreshold from the source: the calibrated threshold
marBaseline * MAR_CALIBRATION_FACTOR when the baseline is set and at least
5 samples were accumulated, else the static fallback. -/
noncomputable def getCurrentMARThreshold (s : CalibrationState) : ℝ :=
  match s.marBaseline with
  | some b => if 5 ≤ s.calibrationSamples then b * MAR_CALIBRATION_FACTOR else MAR_THRESHOLD
  | none => MAR_THRESHOLD

/-- The per-frame eye condition of the detection phase: avgEAR < earThreshold.
A NaN average (none) compares false, as in JavaScript. -/
noncomputable def eyesClosedOf (landmarks : FaceLandmarks) (s : CalibrationState) : Bool :=
  match avgEAROf landmarks with
  | some e => decide (e < getCurrentEARThreshold s)
  | none => false

/-- The per-frame mouth condition of the detection phase: mar > marThreshold.
A NaN MAR (none) compares false, as in JavaScript. -/
noncomputable def isYawningOf (landmarks : FaceLandmarks) (s : CalibrationState) : Bool :=
  match _calcMARFromMouth landmarks MOUTH_POINTS with
  | some m => decide (getCurrentMARThreshold s < m)
  | none => false

/-- The debounce update of one tracker ref (lines 76-87 of the hook): when the
condition holds, set the start time if unset, else keep it; when the condition
fails, clear unconditionally. -/
noncomputable def updateTracker (cond : Bool) (start : Option ℝ) (now : ℝ) : Option ℝ :=
  if cond then
    match start with
    | none => some now
    | some t => some t
  else none

/-- The sustained test (lines 90-91 of the hook): the start time is set and
now minus it exceeds the sustained duration. -/
noncomputable def sustainedAfter (start : Option ℝ) (now : ℝ) : Bool :=
  match start with
  | some t => decide (now - t > SUSTAINED_DURATION_MS)
  | none => false

/-- The triple handed to the onDetection callback. -/
structure Detection where
  eyeStatus : String
  mouthStatus : String
  alertRequired : Bool
deriving DecidableEq

/-- The mutable state owned by one initialized detector: the closure
variables calibrating and calibrationStart, the two tracker refs, and the
calibration state the module functions close over. -/
structure DetectorState where
  calibrating : Bool
  calibrationStart : ℝ
  closedEyeStart : Option ℝ
  openMouthStart : Option ℝ
  calib : CalibrationState

/-- The onResults callback of useMediaPipe.ts as a step function.  res is
none when results.multiFaceLandmarks is absent or empty, some landmarks
otherwise; dateNow and perfNow are the values Date.now() and
performance.now() would return during this invocation. -/
noncomputable def onResults (st : DetectorState) (res : Option FaceLandmarks)
    (dateNow perfNow : ℝ) : DetectorState × Detection :=
  match res with
  | some landmarks =>
    if st.calibrating then
      ({ st with
          calib := accumulateCalibration landmarks st.calib
          calibrating := !decide (dateNow - st.calibrationStart > CALIBRATION_WINDOW_MS) },
        ⟨"Calibrating", "Calibrating", false⟩)
    else
      let closedEyeStart := updateTracker (eyesClosedOf landmarks st.calib) st.closedEyeStart perfNow
      let openMouthStart := updateTracker (isYawningOf landmarks st.calib) st.openMouthStart perfNow
      let drowsyDetected := sustainedAfter closedEyeStart perfNow
      let yawnDetected := sustainedAfter openMouthStart perfNow
      ({ st with closedEyeStart := closedEyeStart, openMouthStart := openMouthStart },
        ⟨if drowsyDetected then "Drowsy" else "Active",
         if yawnDetected then "Yawning" else "Active",
         drowsyDetected || yawnDetected⟩)
  | none => (st, ⟨"Inactive", "Inactive", false⟩)

/-- The record returned by analyzeFrame in the source. -/
structure DrowsinessFrameMetrics where
  ear : Option ℝ
  mar : Option ℝ
  isEyesClosed : Bool
  isYawn : Bool
  earThreshold : ℝ
  marThreshold : ℝ
  calibrated : Bool
  calibrationSamples : ℕ

/-- analyzeFrame from the source: per-frame metrics and flags; note it uses
only the left eye for its EAR, as the source does, and its closed/yawn flags
are false whenever the corresponding metric is non-finite. -/
noncomputable def analyzeFrame (landmarks : FaceLandmarks) (s : CalibrationState) :
    DrowsinessFrameMetrics :=
  { ear := _calcEARFromEye landmarks LEFT_EYE_POINTS
    mar := _calcMARFromMouth landmarks MOUTH_POINTS
    isEyesClosed := match _calcEARFromEye landmarks LEFT_EYE_POINTS with
      | some e => decide (e < getCurrentEARThreshold s)
      | none => false
    isYawn := match _calcMARFromMouth landmarks MOUTH_POINTS with
      | some m => decide (getCurrentMARThreshold s < m)
      | none => false
    earThreshold := getCurrentEARThreshold s
    marThreshold := getCurrentMARThreshold s
    calibrated := decide (5 ≤ s.calibrationSamples)
    calibrationSamples := s.calibrationSamples }

/-! ### Evaluation helpers -/

theorem dist2D_eq (a b : Pt) (d : ℝ) (hd : 0 ≤ d)
    (h : d * d = (a.x - b.x) ^ 2 + (a.y - b.y) ^ 2) : dist2D a b = d := by
  rw [dist2D, ← h, Real.sqrt_mul_self hd]

theorem dist2D_mk (x1 y1 x2 y2 d : ℝ) (z1 z2 : Option ℝ) (hd : 0 ≤ d)
    (h : d * d = (x1 - x2) ^ 2 + (y1 - y2) ^ 2) :
    dist2D ⟨x1, y1, z1⟩ ⟨x2, y2, z2⟩ = d :=
  dist2D_eq _ _ d hd h

theorem dist2D_self (a : Pt) : dist2D a a = 0 :=
  dist2D_eq a a 0 le_rfl (by ring)

theorem calcEAR_eval (f : FaceLandmarks) (i1 i2 i3 i4 i5 i6 : ℕ) (p1 p2 p3 p4 p5 p6 : Pt)
    (h1 : f i1 = some p1) (h2 : f i2 = some p2) (h3 : f i3 = some p3)
    (h4 : f i4 = some p4) (h5 : f i5 = some p5) (h6 : f i6 = some p6) :
    _calcEARFromEye f [i1, i2, i3, i4, i5, i6] =
      if dist2D p1 p4 = 0 then none
      else some ((dist2D p2 p6 + dist2D p3 p5) / (2 * dist2D p1 p4)) := by
  simp [_calcEARFromEye, getLM, h1, h2, h3, h4, h5, h6]

theorem calcMAR_eval (f : FaceLandmarks) (j1 j2 j3 j4 j5 j6 j7 j8 : ℕ)
    (q1 q2 q3 q4 q5 q6 q7 q8 : Pt)
    (h1 : f j1 = some q1) (h2 : f j2 = some q2) (h3 : f j3 = some q3)
    (h4 : f j4 = some q4) (h5 : f j5 = some q5) (h6 : f j6 = some q6)
    (h7 : f j7 = some q7) (h8 : f j8 = some q8) :
    _calcMARFromMouth f [j1, j2, j3, j4, j5, j6, j7, j8] =
      if dist2D q8 q4 = 0 then none
      else some (((dist2D q1 q3 + dist2D q2 q6 + dist2D q1 q7) / 3) / dist2D q8 q4) := by
  simp [_calcMARFromMouth, getLM, h1, h2, h3, h4, h5, h6, h7, h8]

theorem calcEAR_none_of_missing (f : FaceLandmarks) (idxs : List ℕ)
    (h : ∃ i ∈ idxs, getLM f i = none) : _calcEARFromEye f idxs = none := by
  obtain ⟨i, hm, hn⟩ := h
  rw [_calcEARFromEye]
  by_cases hl : idxs.length < 6
  · rw [if_pos hl]
  · have hany : (idxs.map (getLM f)).any Option.isNone = true := by
      simp only [List.any_eq_true]
      exact ⟨getLM f i, List.mem_map_of_mem _ hm, by rw [hn]; rfl⟩
    rw [if_neg hl, if_pos hany]

theorem calcMAR_none_of_missing (f : FaceLandmarks) (idxs : List ℕ)
    (h : ∃ i ∈ idxs, getLM f i = none) : _calcMARFromMouth f idxs = none := by
  obtain ⟨i, hm, hn⟩ := h
  rw [_calcMARFromMouth]
  by_cases hl : idxs.length < 8
  · rw [if_pos hl]
  · have hany : (idxs.map (getLM f)).any Option.isNone = true := by
      simp only [List.any_eq_true]
      exact ⟨getLM f i, List.mem_map_of_mem _ hm, by rw [hn]; rfl⟩
    rw [if_neg hl, if_pos hany]

/-- A concrete landmark frame with axis-aligned eye and mouth points, used to
exercise the pipeline on exact rational values: both eye EARs evaluate to
9/20 = 0.45 and the MAR evaluates to 3/10 = 0.3. -/
noncomputable def testFrame : FaceLandmarks := fun i =>
  if i = 33 then some ⟨0, 0, none⟩
  else if i = 160 then some ⟨3/10, 2/10, none⟩
  else if i = 158 then some ⟨6/10, 1/4, none⟩
  else if i = 133 then some ⟨1, 0, none⟩
  else if i = 153 then some ⟨6/10, -(1/4), none⟩
  else if i = 144 then some ⟨3/10, -(2/10), none⟩
  else if i = 263 then some ⟨2, 0, none⟩
  else if i = 387 then some ⟨23/10, 2/10, none⟩
  else if i = 385 then some ⟨26/10, 1/4, none⟩
  else if i = 362 then some ⟨3, 0, none⟩
  else if i = 380 then some ⟨26/10, -(1/4), none⟩
  else if i = 373 then some ⟨23/10, -(2/10), none⟩
  else if i = 13 then some ⟨1/2, 52/10, none⟩
  else if i = 14 then some ⟨4/10, 51/10, none⟩
  else if i = 78 then some ⟨1/2, 49/10, none⟩
  else if i = 308 then some ⟨1, 5, none⟩
  else if i = 82 then some ⟨9/10, 5, none⟩
  else if i = 312 then some ⟨4/10, 48/10, none⟩
  else if i = 87 then some ⟨1/2, 49/10, none⟩
  else if i = 317 then some ⟨0, 5, none⟩
  else none

theorem testFrame_leftEAR : _calcEARFromEye testFrame LEFT_EYE_POINTS = some (9/20) := by
  rw [LEFT_EYE_POINTS]
  rw [calcEAR_eval testFrame 33 160 158 133 153 144
    ⟨0, 0, none⟩ ⟨3/10, 2/10, none⟩ ⟨6/10, 1/4, none⟩ ⟨1, 0, none⟩
    ⟨6/10, -(1/4), none⟩ ⟨3/10, -(2/10), none⟩ rfl rfl rfl rfl rfl rfl]
  rw [dist2D_mk 0 0 1 0 1 none none (by norm_num) (by norm_num)]
  rw [dist2D_mk (3/10) (2/10) (3/10) (-(2/10)) (4/10) none none (by norm_num) (by norm_num)]
  rw [dist2D_mk (6/10) (1/4) (6/10) (-(1/4)) (1/2) none none (by norm_num) (by norm_num)]
  rw [if_neg (by norm_num : (1:ℝ) ≠ 0)]
  norm_num

theorem testFrame_rightEAR : _calcEARFromEye testFrame RIGHT_EYE_POINTS = some (9/20) := by
  rw [RIGHT_EYE_POINTS]
  rw [calcEAR_eval testFrame 263 387 385 362 380 373
    ⟨2, 0, none⟩ ⟨23/10, 2/10, none⟩ ⟨26/10, 1/4, none⟩ ⟨3, 0, none⟩
    ⟨26/10, -(1/4), none⟩ ⟨23/10, -(2/10), none⟩ rfl rfl rfl rfl rfl rfl]
  rw [dist2D_mk 2 0 3 0 1 none none (by norm_num) (by norm_num)]
  rw [dist2D_mk (23/10) (2/10) (23/10) (-(2/10)) (4/10) none none (by norm_num) (by norm_num)]
  rw [dist2D_mk (26/10) (1/4) (26/10) (-(1/4)) (1/2) none none (by norm_num) (by norm_num)]
  rw [if_neg (by norm_num : (1:ℝ) ≠ 0)]
  norm_num

theorem testFrame_MAR : _calcMARFromMouth testFrame MOUTH_POINTS = some (3/10) := by
  rw [MOUTH_POINTS]
  rw [calcMAR_eval testFrame 13 14 78 308 82 312 87 317
    ⟨1/2, 52/10, none⟩ ⟨4/10, 51/10, none⟩ ⟨1/2, 49/10, none⟩ ⟨1, 5, none⟩
    ⟨9/10, 5, none⟩ ⟨4/10, 48/10, none⟩ ⟨1/2, 49/10, none⟩ ⟨0, 5, none⟩
    rfl rfl rfl rfl rfl rfl rfl rfl]
  rw [dist2D_mk 0 5 1 5 1 none none (by norm_num) (by norm_num)]
  rw [dist2D_mk (1/2) (52/10) (1/2) (49/10) (3/10) none none (by norm_num) (by norm_num)]
  rw [dist2D_mk (4/10) (51/10) (4/10) (48/10) (3/10) none none (by norm_num) (by norm_num)]
  rw [if_neg (by norm_num : (1:ℝ) ≠ 0)]
  norm_num

theorem testFrame_avgEAR : avgEAROf testFrame = some (9/20) := by
  rw [avgEAROf, testFrame_leftEAR, testFrame_rightEAR]
  show some (((9:ℝ)/20 + 9/20) / 2) = some (9/20)
  norm_num

theorem reset_EAR_threshold : getCurrentEARThreshold resetCalibration = EAR_THRESHOLD := rfl

theorem reset_MAR_threshold : getCurrentMARThreshold resetCalibration = MAR_THRESHOLD := rfl

theorem testFrame_eyesClosed : eyesClosedOf testFrame resetCalibration = false := by
  rw [eyesClosedOf, testFrame_avgEAR]
  show decide ((9:ℝ)/20 < getCurrentEARThreshold resetCalibration) = false
  rw [reset_EAR_threshold, EAR_THRESHOLD, decide_eq_false_iff_not]
  norm_num

theorem testFrame_isYawning : isYawningOf testFrame resetCalibration = false := by
  rw [isYawningOf, testFrame_MAR]
  show decide (getCurrentMARThreshold resetCalibration < (3:ℝ)/10) = false
  rw [reset_MAR_threshold, MAR_THRESHOLD, decide_eq_false_iff_not]
  norm_num

/-- The frame with no landmarks at all: every lookup misses. -/
def emptyFrame : FaceLandmarks := fun _ => none

theorem emptyFrame_leftEAR : _calcEARFromEye emptyFrame LEFT_EYE_POINTS = none :=
  calcEAR_none_of_missing _ _ ⟨33, by rw [LEFT_EYE_POINTS]; simp, rfl⟩

theorem emptyFrame_avgEAR : avgEAROf emptyFrame = none := by
  rw [avgEAROf, emptyFrame_leftEAR]

/-- testFrame with the left mouth corner (index 317) removed: the mouth
metric is not computable on it while both eyes still evaluate. -/
noncomputable def brokenMouthFrame : FaceLandmarks := fun i =>
  if i = 317 then none else testFrame i

theorem brokenMouthFrame_MAR : _calcMARFromMouth brokenMouthFrame MOUTH_POINTS = none :=
  calcMAR_none_of_missing _ _ ⟨317, by rw [MOUTH_POINTS]; simp, rfl⟩

theorem brokenMouthFrame_avgEAR : avgEAROf brokenMouthFrame = some (9/20) := by
  have hl : _calcEARFromEye brokenMouthFrame LEFT_EYE_POINTS = some (9/20) := by
    rw [LEFT_EYE_POINTS]
    rw [calcEAR_eval brokenMouthFrame 33 160 158 133 153 144
      ⟨0, 0, none⟩ ⟨3/10, 2/10, none⟩ ⟨6/10, 1/4, none⟩ ⟨1, 0, none⟩
      ⟨6/10, -(1/4), none⟩ ⟨3/10, -(2/10), none⟩ rfl rfl rfl rfl rfl rfl]
    rw [dist2D_mk 0 0 1 0 1 none none (by norm_num) (by norm_num)]
    rw [dist2D_mk (3/10) (2/10) (3/10) (-(2/10)) (4/10) none none (by norm_num) (by norm_num)]
    rw [dist2D_mk (6/10) (1/4) (6/10) (-(1/4)) (1/2) none none (by norm_num) (by norm_num)]
    rw [if_neg (by norm_num : (1:ℝ) ≠ 0)]
    norm_num
  have hr : _calcEARFromEye brokenMouthFrame RIGHT_EYE_POINTS = some (9/20) := by
    rw [RIGHT_EYE_POINTS]
    rw [calcEAR_eval brokenMouthFrame 263 387 385 362 380 373
      ⟨2, 0, none⟩ ⟨23/10, 2/10, none⟩ ⟨26/10, 1/4, none⟩ ⟨3, 0, none⟩
      ⟨26/10, -(1/4), none⟩ ⟨23/10, -(2/10), none⟩ rfl rfl rfl rfl rfl rfl]
    rw [dist2D_mk 2 0 3 0 1 none none (by norm_num) (by norm_num)]
    rw [dist2D_mk (23/10) (2/10) (23/10) (-(2/10)) (4/10) none none (by norm_num) (by norm_num)]
    rw [dist2D_mk (26/10) (1/4) (26/10) (-(1/4)) (1/2) none none (by norm_num) (by norm_num)]
    rw [if_neg (by norm_num : (1:ℝ) ≠ 0)]
    norm_num
  rw [avgEAROf, hl, hr]
  show some (((9:ℝ)/20 + 9/20) / 2) = some (9/20)
  norm_num

theorem brokenMouthFrame_eyesClosed : eyesClosedOf brokenMouthFrame resetCalibration = false := by
  rw [eyesClosedOf, brokenMouthFrame_avgEAR]
  show decide ((9:ℝ)/20 < getCurrentEARThreshold resetCalibration) = false
  rw [reset_EAR_threshold, EAR_THRESHOLD, decide_eq_false_iff_not]
  norm_num

theorem brokenMouthFrame_isYawning : isYawningOf brokenMouthFrame resetCalibration = false := by
  rw [isYawningOf, brokenMouthFrame_MAR]

theorem accumulate_eval (frame : FaceLandmarks) (s : CalibrationState) (e m : ℝ)
    (he : avgEAROf frame = some e) (hm : _calcMARFromMouth frame MOUTH_POINTS = some m) :
    accumulateCalibration frame s =
      ⟨some (match s.earBaseline with
         | none => e
         | some b => b + (e - b) / ((s.calibrationSamples : ℝ) + 1)),
       some (match s.marBaseline with
         | none => m
         | some b => b + (m - b) / ((s.calibrationSamples : ℝ) + 1)),
       s.calibrationSamples + 1⟩ := by
  rw [accumulateCalibration, he, hm]

theorem accumulate_iterate_const (frame : FaceLandmarks) (e m : ℝ)
    (he : avgEAROf frame = some e) (hm : _calcMARFromMouth frame MOUTH_POINTS = some m) :
    ∀ N : ℕ, 1 ≤ N →
      (fun s => accumulateCalibration frame s)^[N] resetCalibration =
        ⟨some e, some m, N⟩ := by
  intro N hN
  induction N with
  | zero => omega
  | succ n ih =>
    rw [Function.iterate_succ_apply']
    by_cases hn : n = 0
    · subst hn
      rw [Function.iterate_zero_apply]
      rw [accumulate_eval frame resetCalibration e m he hm]
      rfl
    · rw [ih (Nat.one_le_iff_ne_zero.mpr hn)]
      rw [accumulate_eval frame ⟨some e, some m, n⟩ e m he hm]
      show (⟨some (e + (e - e) / ((n : ℝ) + 1)), some (m + (m - m) / ((n : ℝ) + 1)), n + 1⟩ :
        CalibrationState) = ⟨some e, some m, n + 1⟩
      norm_num

theorem onResults_detection (st : DetectorState) (frame : FaceLandmarks) (dn pn : ℝ)
    (h : st.calibrating = false) :
    onResults st (some frame) dn pn =
      ({ st with
          closedEyeStart := updateTracker (eyesClosedOf frame st.calib) st.closedEyeStart pn,
          openMouthStart := updateTracker (isYawningOf frame st.calib) st.openMouthStart pn },
        ⟨if sustainedAfter (updateTracker (eyesClosedOf frame st.calib) st.closedEyeStart pn) pn
            then "Drowsy" else "Active",
         if sustainedAfter (updateTracker (isYawningOf frame st.calib) st.openMouthStart pn) pn
            then "Yawning" else "Active",
         (sustainedAfter (updateTracker (eyesClosedOf frame st.calib) st.closedEyeStart pn) pn) ||
         (sustainedAfter (updateTracker (isYawningOf frame st.calib) st.openMouthStart pn) pn)⟩) := by
  simp only [onResults, h, Bool.false_eq_true, if_false]

theorem onResults_calibrating (st : DetectorState) (frame : FaceLandmarks) (dn pn : ℝ)
    (h : st.calibrating = true) :
    onResults st (some frame) dn pn =
      ({ st with
          calib := accumulateCalibration frame st.calib,
          calibrating := !decide (dn - st.calibrationStart > CALIBRATION_WINDOW_MS) },
        ⟨"Calibrating", "Calibrating", false⟩) := by
  simp only [onResults, h, if_true]

theorem status_iff (S : Option ℝ) (pn : ℝ) (lbl other : String) (hne : lbl ≠ other) :
    (if sustainedAfter S pn then lbl else other) = lbl ↔
      ∃ t, S = some t ∧ pn - t > SUSTAINED_DURATION_MS := by
  cases hS : S with
  | none =>
    rw [show sustainedAfter none pn = false from rfl, if_neg (by simp)]
    simp [Ne.symm hne]
  | some t =>
    by_cases hgt : pn - t > SUSTAINED_DURATION_MS
    · rw [show sustainedAfter (some t) pn = decide (pn - t > SUSTAINED_DURATION_MS) from rfl]
      rw [if_pos (by simpa using hgt)]
      simp only [true_iff]
      exact ⟨t, rfl, hgt⟩
    · rw [show sustainedAfter (some t) pn = decide (pn - t > SUSTAINED_DURATION_MS) from rfl]
      rw [if_neg (by simpa using hgt)]
      constructor
      · intro hc
        exact absurd hc (Ne.symm hne)
      · rintro ⟨t2, ht2, hgt2⟩
        cases ht2
        exact absurd hgt2 hgt

theorem accumulate_noop (landmarks : FaceLandmarks) (s : CalibrationState)
    (h : avgEAROf landmarks = none ∨ _calcMARFromMouth landmarks MOUTH_POINTS = none) :
    accumulateCalibration landmarks s = s := by
  rcases h with h | h
  · rw [accumulateCalibration, h]
  · rw [accumulateCalibration, h]
    cases he : avgEAROf landmarks <;> rfl

/-- The eye frame of the spec example: p1=(0,0), p2=(0.3,0.2), p3=(0.6,0.25),
p4=(1,0), p5=(0.6,-0.25), p6=(0.3,-0.2) at indices 0..5. -/
noncomputable def exampleEyeFrame : FaceLandmarks := fun i =>
  if i = 0 then some ⟨0, 0, none⟩
  else if i = 1 then some ⟨3/10, 2/10, none⟩
  else if i = 2 then some ⟨6/10, 1/4, none⟩
  else if i = 3 then some ⟨1, 0, none⟩
  else if i = 4 then some ⟨6/10, -(1/4), none⟩
  else if i = 5 then some ⟨3/10, -(2/10), none⟩
  else none

theorem exampleEyeFrame_EAR : calculateEAR exampleEyeFrame [0, 1, 2, 3, 4, 5] = some (45/100) := by
  rw [calculateEAR]
  rw [calcEAR_eval exampleEyeFrame 0 1 2 3 4 5
    ⟨0, 0, none⟩ ⟨3/10, 2/10, none⟩ ⟨6/10, 1/4, none⟩ ⟨1, 0, none⟩
    ⟨6/10, -(1/4), none⟩ ⟨3/10, -(2/10), none⟩ rfl rfl rfl rfl rfl rfl]
  rw [dist2D_mk 0 0 1 0 1 none none (by norm_num) (by norm_num)]
  rw [dist2D_mk (3/10) (2/10) (3/10) (-(2/10)) (4/10) none none (by norm_num) (by norm_num)]
  rw [dist2D_mk (6/10) (1/4) (6/10) (-(1/4)) (1/2) none none (by norm_num) (by norm_num)]
  rw [if_neg (by norm_num : (1:ℝ) ≠ 0)]
  norm_num

/-- A frame mapping every index to the same point, so every reference
distance is zero. -/
noncomputable def degenerateFrame : FaceLandmarks := fun _ => some ⟨0, 0, none⟩

/-- C8: for every frame containing no detected face landmarks, regardless of
the prior classification, the session phase, or any prior state, the emitted
classification is Inactive / Inactive / no alert, and the whole detector
state — both temporal trackers and the calibration state — is left
untouched. -/
theorem no_face_emits_inactive (st : DetectorState) (dn pn : ℝ) :
    onResults st none dn pn = (st, ⟨"Inactive", "Inactive", false⟩) := rfl

/-- C3: the threshold provider is a pure read of calibration state: with the
baselines set, the eye threshold is eyeBaseline * 0.75 when at least 5
samples were accumulated and the static fallback 0.41 otherwise; the mouth
threshold is mouthBaseline * 1.40 when at least 5 samples were accumulated
and the static fallback 0.80 otherwise. -/
theorem threshold_provider_spec (s : CalibrationState) (b c : ℝ)
    (hb : s.earBaseline = some b) (hc : s.marBaseline = some c) :
    (5 ≤ s.calibrationSamples → getCurrentEARThreshold s = b * EAR_CALIBRATION_FACTOR) ∧
    (s.calibrationSamples < 5 → getCurrentEARThreshold s = EAR_THRESHOLD) ∧
    (5 ≤ s.calibrationSamples → getCurrentMARThreshold s = c * MAR_CALIBRATION_FACTOR) ∧
    (s.calibrationSamples < 5 → getCurrentMARThreshold s = MAR_THRESHOLD) ∧
    EAR_THRESHOLD = 41/100 ∧ MAR_THRESHOLD = 80/100 ∧
    EAR_CALIBRATION_FACTOR = 75/100 ∧ MAR_CALIBRATION_FACTOR = 140/100 := by
  refine ⟨?_, ?_, ?_, ?_, rfl, rfl, rfl, rfl⟩
  · intro h5
    simp only [getCurrentEARThreshold, hb]
    rw [if_pos h5]
  · intro h5
    simp only [getCurrentEARThreshold, hb]
    rw [if_neg (by omega)]
  · intro h5
    simp only [getCurrentMARThreshold, hc]
    rw [if_pos h5]
  · intro h5
    simp only [getCurrentMARThreshold, hc]
    rw [if_neg (by omega)]

/-- Witness for C3 at a concrete calibrated state (6 samples, baselines
1/2 and 3/10). -/
theorem threshold_provider_spec_witness :
    (⟨some (1/2), some (3/10), 6⟩ : CalibrationState).earBaseline = some (1/2) ∧
    5 ≤ (⟨some (1/2), some (3/10), 6⟩ : CalibrationState).calibrationSamples ∧
    getCurrentEARThreshold ⟨some (1/2), some (3/10), 6⟩ = (1/2) * EAR_CALIBRATION_FACTOR ∧
    getCurrentMARThreshold ⟨some (1/2), some (3/10), 6⟩ = (3/10) * MAR_CALIBRATION_FACTOR := by
  have h := threshold_provider_spec ⟨some (1/2), some (3/10), 6⟩ (1/2) (3/10) rfl rfl
  exact ⟨rfl, by norm_num, h.1 (by norm_num), h.2.2.1 (by norm_num)⟩

/-- C5: for every frame whose computed (averaged) eye ratio or mouth ratio is
non-finite, accumulateCalibration is a no-op: the sample count and both
baselines are left unchanged. -/
theorem calibration_noop_nonfinite (landmarks : FaceLandmarks) (s : CalibrationState)
    (h : avgEAROf landmarks = none ∨ _calcMARFromMouth landmarks MOUTH_POINTS = none) :
    accumulateCalibration landmarks s = s :=
  accumulate_noop landmarks s h

/-- Witness for C5: the empty frame has a non-finite eye ratio and leaves a
concrete calibration state unchanged. -/
theorem calibration_noop_nonfinite_witness :
    avgEAROf emptyFrame = none ∧
    accumulateCalibration emptyFrame ⟨some 1, some 1, 3⟩ = ⟨some 1, some 1, 3⟩ :=
  ⟨emptyFrame_avgEAR,
   calibration_noop_nonfinite emptyFrame ⟨some 1, some 1, 3⟩ (Or.inl emptyFrame_avgEAR)⟩

/-- C2: for every frame in which all 6 eye landmarks exist with numeric
coordinates and the horizontal reference distance is nonzero, the computed
EAR equals (dist(p2,p6) + dist(p3,p5)) / (2 * dist(p1,p4)) with 2D Euclidean
distances (z ignored); in particular, on the spec example points the result
is exactly 0.45. -/
theorem ear_formula_spec (f : FaceLandmarks) (i1 i2 i3 i4 i5 i6 : ℕ)
    (p1 p2 p3 p4 p5 p6 : Pt)
    (h1 : getLM f i1 = some p1) (h2 : getLM f i2 = some p2) (h3 : getLM f i3 = some p3)
    (h4 : getLM f i4 = some p4) (h5 : getLM f i5 = some p5) (h6 : getLM f i6 = some p6)
    (hnz : dist2D p1 p4 ≠ 0) :
    calculateEAR f [i1, i2, i3, i4, i5, i6] =
      some ((dist2D p2 p6 + dist2D p3 p5) / (2 * dist2D p1 p4)) ∧
    calculateEAR exampleEyeFrame [0, 1, 2, 3, 4, 5] = some (45/100) := by
  constructor
  · rw [calculateEAR, calcEAR_eval f i1 i2 i3 i4 i5 i6 p1 p2 p3 p4 p5 p6 h1 h2 h3 h4 h5 h6,
      if_neg hnz]
  · exact exampleEyeFrame_EAR

/-- Witness for C2 at the spec example frame. -/
theorem ear_formula_spec_witness :
    getLM exampleEyeFrame 0 = some ⟨0, 0, none⟩ ∧
    dist2D (⟨0, 0, none⟩ : Pt) ⟨1, 0, none⟩ ≠ 0 ∧
    calculateEAR exampleEyeFrame [0, 1, 2, 3, 4, 5] =
      some ((dist2D ⟨3/10, 2/10, none⟩ ⟨3/10, -(2/10), none⟩ +
             dist2D ⟨6/10, 1/4, none⟩ ⟨6/10, -(1/4), none⟩) /
            (2 * dist2D ⟨0, 0, none⟩ ⟨1, 0, none⟩)) := by
  have hd : dist2D (⟨0, 0, none⟩ : Pt) ⟨1, 0, none⟩ ≠ 0 := by
    rw [dist2D_mk 0 0 1 0 1 none none (by norm_num) (by norm_num)]
    norm_num
  exact ⟨rfl, hd,
    (ear_formula_spec exampleEyeFrame 0 1 2 3 4 5 _ _ _ _ _ _
      rfl rfl rfl rfl rfl rfl hd).1⟩

/-- C4: both metric calculators return the non-finite sentinel, never
throwing, when any required landmark index is absent from the frame or
non-numeric, and when the horizontal (eye) or width (mouth) reference
distance is exactly zero. -/
theorem metric_sentinel_spec :
    (∀ (f : FaceLandmarks) (idxs : List ℕ), (∃ i ∈ idxs, getLM f i = none) →
      calculateEAR f idxs = none) ∧
    (∀ (f : FaceLandmarks) (idxs : List ℕ), (∃ i ∈ idxs, getLM f i = none) →
      calculateMAR f idxs = none) ∧
    (∀ (f : FaceLandmarks) (i1 i2 i3 i4 i5 i6 : ℕ) (p1 p2 p3 p4 p5 p6 : Pt),
      getLM f i1 = some p1 → getLM f i2 = some p2 → getLM f i3 = some p3 →
      getLM f i4 = some p4 → getLM f i5 = some p5 → getLM f i6 = some p6 →
      dist2D p1 p4 = 0 → calculateEAR f [i1, i2, i3, i4, i5, i6] = none) ∧
    (∀ (f : FaceLandmarks) (j1 j2 j3 j4 j5 j6 j7 j8 : ℕ) (q1 q2 q3 q4 q5 q6 q7 q8 : Pt),
      getLM f j1 = some q1 → getLM f j2 = some q2 → getLM f j3 = some q3 →
      getLM f j4 = some q4 → getLM f j5 = some q5 → getLM f j6 = some q6 →
      getLM f j7 = some q7 → getLM f j8 = some q8 →
      dist2D q8 q4 = 0 → calculateMAR f [j1, j2, j3, j4, j5, j6, j7, j8] = none) := by
  refine ⟨?_, ?_, ?_, ?_⟩
  · intro f idxs h
    rw [calculateEAR]
    exact calcEAR_none_of_missing f idxs h
  · intro f idxs h
    rw [calculateMAR]
    exact calcMAR_none_of_missing f idxs h
  · intro f i1 i2 i3 i4 i5 i6 p1 p2 p3 p4 p5 p6 h1 h2 h3 h4 h5 h6 h0
    rw [calculateEAR, calcEAR_eval f i1 i2 i3 i4 i5 i6 p1 p2 p3 p4 p5 p6 h1 h2 h3 h4 h5 h6,
      if_pos h0]
  · intro f j1 j2 j3 j4 j5 j6 j7 j8 q1 q2 q3 q4 q5 q6 q7 q8 h1 h2 h3 h4 h5 h6 h7 h8 h0
    rw [calculateMAR,
      calcMAR_eval f j1 j2 j3 j4 j5 j6 j7 j8 q1 q2 q3 q4 q5 q6 q7 q8 h1 h2 h3 h4 h5 h6 h7 h8,
      if_pos h0]

/-- Witness for C4: the empty frame misses every index, and the degenerate
frame makes the reference distances exactly zero. -/
theorem metric_sentinel_spec_witness :
    (∃ i ∈ LEFT_EYE_POINTS, getLM emptyFrame i = none) ∧
    calculateEAR emptyFrame LEFT_EYE_POINTS = none ∧
    calculateMAR emptyFrame MOUTH_POINTS = none ∧
    dist2D (⟨0, 0, none⟩ : Pt) ⟨0, 0, none⟩ = 0 ∧
    calculateEAR degenerateFrame [1, 2, 3, 4, 5, 6] = none ∧
    calculateMAR degenerateFrame [1, 2, 3, 4, 5, 6, 7, 8] = none := by
  have hmemE : ∃ i ∈ LEFT_EYE_POINTS, getLM emptyFrame i = none :=
    ⟨33, by rw [LEFT_EYE_POINTS]; simp, rfl⟩
  have hmemM : ∃ i ∈ MOUTH_POINTS, getLM emptyFrame i = none :=
    ⟨13, by rw [MOUTH_POINTS]; simp, rfl⟩
  exact ⟨hmemE,
    metric_sentinel_spec.1 emptyFrame LEFT_EYE_POINTS hmemE,
    metric_sentinel_spec.2.1 emptyFrame MOUTH_POINTS hmemM,
    dist2D_self _,
    metric_sentinel_spec.2.2.1 degenerateFrame 1 2 3 4 5 6 _ _ _ _ _ _
      rfl rfl rfl rfl rfl rfl (dist2D_self _),
    metric_sentinel_spec.2.2.2 degenerateFrame 1 2 3 4 5 6 7 8 _ _ _ _ _ _ _ _
      rfl rfl rfl rfl rfl rfl rfl rfl (dist2D_self _)⟩

/-- C6: feeding N identical finite samples into the calibration accumulator
starting from the reset state yields each baseline equal to that sample's
value and a sample count of N; the reset state itself has count 0, cleared
baselines, and both thresholds at the static fallbacks. -/
theorem identical_samples_mean (frame : FaceLandmarks) (e m : ℝ) (N : ℕ)
    (he : avgEAROf frame = some e) (hm : _calcMARFromMouth frame MOUTH_POINTS = some m)
    (hN : 1 ≤ N) :
    ((fun s => accumulateCalibration frame s)^[N] resetCalibration).earBaseline = some e ∧
    ((fun s => accumulateCalibration frame s)^[N] resetCalibration).marBaseline = some m ∧
    ((fun s => accumulateCalibration frame s)^[N] resetCalibration).calibrationSamples = N ∧
    resetCalibration.calibrationSamples = 0 ∧
    resetCalibration.earBaseline = none ∧
    resetCalibration.marBaseline = none ∧
    getCurrentEARThreshold resetCalibration = EAR_THRESHOLD ∧
    getCurrentMARThreshold resetCalibration = MAR_THRESHOLD := by
  rw [accumulate_iterate_const frame e m he hm N hN]
  exact ⟨rfl, rfl, rfl, rfl, rfl, rfl, rfl, rfl⟩

/-- Witness for C6: five identical testFrame samples give baseline 9/20 and
count 5. -/
theorem identical_samples_mean_witness :
    avgEAROf testFrame = some (9/20) ∧
    ((fun s => accumulateCalibration testFrame s)^[5] resetCalibration).earBaseline =
      some (9/20) ∧
    ((fun s => accumulateCalibration testFrame s)^[5] resetCalibration).calibrationSamples = 5 := by
  have h := identical_samples_mean testFrame (9/20) (3/10) 5
    testFrame_avgEAR testFrame_MAR (by norm_num)
  exact ⟨testFrame_avgEAR, h.1, h.2.2.1⟩

/-- The invariant of the calibration state: the sample count is zero exactly
when the eye baseline is unset, exactly when the mouth baseline is unset. -/
def CalibInv (s : CalibrationState) : Prop :=
  (s.calibrationSamples = 0 ↔ s.earBaseline = none) ∧
  (s.calibrationSamples = 0 ↔ s.marBaseline = none)

/-- C10: the calibration-state invariant holds at reset, is preserved by
every accumulateCalibration call, and consequently whenever at least 5
samples were accumulated both baselines are set and each threshold getter
returns the calibrated product — the null guard never decides. -/
theorem calibration_invariant :
    CalibInv resetCalibration ∧
    (∀ (landmarks : FaceLandmarks) (s : CalibrationState),
      CalibInv s → CalibInv (accumulateCalibration landmarks s)) ∧
    (∀ s : CalibrationState, CalibInv s → 5 ≤ s.calibrationSamples →
      (∃ b, s.earBaseline = some b ∧
        getCurrentEARThreshold s = b * EAR_CALIBRATION_FACTOR) ∧
      (∃ c, s.marBaseline = some c ∧
        getCurrentMARThreshold s = c * MAR_CALIBRATION_FACTOR)) := by
  refine ⟨⟨by simp [resetCalibration], by simp [resetCalibration]⟩, ?_, ?_⟩
  · intro landmarks s hs
    cases he : avgEAROf landmarks with
    | none =>
      rw [accumulate_noop landmarks s (Or.inl he)]
      exact hs
    | some e =>
      cases hm : _calcMARFromMouth landmarks MOUTH_POINTS with
      | none =>
        rw [accumulate_noop landmarks s (Or.inr hm)]
        exact hs
      | some m =>
        rw [accumulate_eval landmarks s e m he hm]
        exact ⟨by simp, by simp⟩
  · intro s hs h5
    obtain ⟨h1, h2⟩ := hs
    cases hb : s.earBaseline with
    | none => exact absurd (h1.mpr hb) (by omega)
    | some b =>
      cases hc : s.marBaseline with
      | none => exact absurd (h2.mpr hc) (by omega)
      | some c =>
        refine ⟨⟨b, rfl, ?_⟩, ⟨c, rfl, ?_⟩⟩
        · simp only [getCurrentEARThreshold, hb]
          rw [if_pos h5]
        · simp only [getCurrentMARThreshold, hc]
          rw [if_pos h5]

/-- Witness for C10 at a concrete calibrated state. -/
theorem calibration_invariant_witness :
    CalibInv ⟨some 1, some 1, 5⟩ ∧
    (∃ b, (⟨some 1, some 1, 5⟩ : CalibrationState).earBaseline = some b ∧
      getCurrentEARThreshold ⟨some 1, some 1, 5⟩ = b * EAR_CALIBRATION_FACTOR) := by
  have hinv : CalibInv ⟨some 1, some 1, 5⟩ := ⟨by simp, by simp⟩
  exact ⟨hinv, (calibration_invariant.2.2 ⟨some 1, some 1, 5⟩ hinv (by norm_num)).1⟩

/-- C1: temporal debounce, independently per signal, in the detection phase:
a true per-frame condition sets the unset start time to the current
timestamp and keeps a set one; a false condition unconditionally clears it;
the signal is classified sustained (Drowsy / Yawning) iff the (updated)
start time is set and now minus it exceeds SUSTAINED_DURATION_MS, else
Active; and the alert flag is set iff either signal is sustained. -/
theorem temporal_debounce_spec (st : DetectorState) (frame : FaceLandmarks) (dn pn : ℝ)
    (h : st.calibrating = false) :
    (eyesClosedOf frame st.calib = true → st.closedEyeStart = none →
      (onResults st (some frame) dn pn).1.closedEyeStart = some pn) ∧
    (eyesClosedOf frame st.calib = true → ∀ t, st.closedEyeStart = some t →
      (onResults st (some frame) dn pn).1.closedEyeStart = some t) ∧
    (eyesClosedOf frame st.calib = false →
      (onResults st (some frame) dn pn).1.closedEyeStart = none) ∧
    (isYawningOf frame st.calib = true → st.openMouthStart = none →
      (onResults st (some frame) dn pn).1.openMouthStart = some pn) ∧
    (isYawningOf frame st.calib = true → ∀ t, st.openMouthStart = some t →
      (onResults st (some frame) dn pn).1.openMouthStart = some t) ∧
    (isYawningOf frame st.calib = false →
      (onResults st (some frame) dn pn).1.openMouthStart = none) ∧
    ((onResults st (some frame) dn pn).2.eyeStatus = "Drowsy" ↔
      ∃ t, (onResults st (some frame) dn pn).1.closedEyeStart = some t ∧
        pn - t > SUSTAINED_DURATION_MS) ∧
    ((onResults st (some frame) dn pn).2.mouthStatus = "Yawning" ↔
      ∃ t, (onResults st (some frame) dn pn).1.openMouthStart = some t ∧
        pn - t > SUSTAINED_DURATION_MS) ∧
    ((onResults st (some frame) dn pn).2.eyeStatus = "Drowsy" ∨
      (onResults st (some frame) dn pn).2.eyeStatus = "Active") ∧
    ((onResults st (some frame) dn pn).2.mouthStatus = "Yawning" ∨
      (onResults st (some frame) dn pn).2.mouthStatus = "Active") ∧
    ((onResults st (some frame) dn pn).2.alertRequired = true ↔
      ((onResults st (some frame) dn pn).2.eyeStatus = "Drowsy" ∨
       (onResults st (some frame) dn pn).2.mouthStatus = "Yawning")) := by
  rw [onResults_detection st frame dn pn h]
  refine ⟨?_, ?_, ?_, ?_, ?_, ?_, ?_, ?_, ?_, ?_, ?_⟩
  · intro hc hs
    simp [updateTracker, hc, hs]
  · intro hc t ht
    simp [updateTracker, hc, ht]
  · intro hc
    simp [updateTracker, hc]
  · intro hc hs
    simp [updateTracker, hc, hs]
  · intro hc t ht
    simp [updateTracker, hc, ht]
  · intro hc
    simp [updateTracker, hc]
  · exact status_iff _ pn "Drowsy" "Active" (by decide)
  · exact status_iff _ pn "Yawning" "Active" (by decide)
  · cases hsb : sustainedAfter
      (updateTracker (eyesClosedOf frame st.calib) st.closedEyeStart pn) pn <;> simp [hsb]
  · cases hsb : sustainedAfter
      (updateTracker (isYawningOf frame st.calib) st.openMouthStart pn) pn <;> simp [hsb]
  · cases hsb1 : sustainedAfter
      (updateTracker (eyesClosedOf frame st.calib) st.closedEyeStart pn) pn <;>
    cases hsb2 : sustainedAfter
      (updateTracker (isYawningOf frame st.calib) st.openMouthStart pn) pn <;>
    simp [hsb1, hsb2]

/-- Witness for C1: on the open-eye test frame in the detection phase, the
eye condition is false and the tracker comes out cleared. -/
theorem temporal_debounce_spec_witness :
    (⟨false, 0, none, none, resetCalibration⟩ : DetectorState).calibrating = false ∧
    eyesClosedOf testFrame resetCalibration = false ∧
    (onResults ⟨false, 0, none, none, resetCalibration⟩
      (some testFrame) 0 100).1.closedEyeStart = none := by
  refine ⟨rfl, testFrame_eyesClosed, ?_⟩
  exact (temporal_debounce_spec ⟨false, 0, none, none, resetCalibration⟩
    testFrame 0 100 rfl).2.2.1 testFrame_eyesClosed

theorem brokenMouth_onResults :
    onResults ⟨false, 0, none, none, resetCalibration⟩ (some brokenMouthFrame) 0 0 =
      (⟨false, 0, none, none, resetCalibration⟩, ⟨"Active", "Active", false⟩) := by
  rw [onResults_detection _ _ _ _ rfl]
  rw [show eyesClosedOf brokenMouthFrame
      (⟨false, 0, none, none, resetCalibration⟩ : DetectorState).calib = false from
    brokenMouthFrame_eyesClosed]
  rw [show isYawningOf brokenMouthFrame
      (⟨false, 0, none, none, resetCalibration⟩ : DetectorState).calib = false from
    brokenMouthFrame_isYawning]
  rfl

/-- Counterexample for C7: in the detection phase, a face frame whose mouth
metric is non-finite yields mouthStatus "Active", not the "Inactive"
classification named by the claim. -/
theorem nonfinite_metric_not_inactive_cex :
    _calcMARFromMouth brokenMouthFrame MOUTH_POINTS = none ∧
    (onResults ⟨false, 0, none, none, resetCalibration⟩
      (some brokenMouthFrame) 0 0).2.mouthStatus = "Active" ∧
    (onResults ⟨false, 0, none, none, resetCalibration⟩
      (some brokenMouthFrame) 0 0).2.mouthStatus ≠ "Inactive" := by
  rw [brokenMouth_onResults]
  exact ⟨brokenMouthFrame_MAR, rfl, by decide⟩

/-- C7 (amended): for every detection-phase frame where a computed metric is
non-finite, that signal's per-frame condition is treated as false — its
tracker is cleared, its classification degrades to the neutral
non-sustained "Active" (not "Inactive"), and it contributes no alert — and
no exception is propagated (the step is total). -/
theorem nonfinite_degrades_active (st : DetectorState) (frame : FaceLandmarks) (dn pn : ℝ)
    (h : st.calibrating = false) :
    (avgEAROf frame = none →
      (onResults st (some frame) dn pn).1.closedEyeStart = none ∧
      (onResults st (some frame) dn pn).2.eyeStatus = "Active" ∧
      ((onResults st (some frame) dn pn).2.alertRequired = true →
        (onResults st (some frame) dn pn).2.mouthStatus = "Yawning")) ∧
    (_calcMARFromMouth frame MOUTH_POINTS = none →
      (onResults st (some frame) dn pn).1.openMouthStart = none ∧
      (onResults st (some frame) dn pn).2.mouthStatus = "Active" ∧
      ((onResults st (some frame) dn pn).2.alertRequired = true →
        (onResults st (some frame) dn pn).2.eyeStatus = "Drowsy")) := by
  rw [onResults_detection st frame dn pn h]
  constructor
  · intro hear
    have hc : eyesClosedOf frame st.calib = false := by rw [eyesClosedOf, hear]
    rw [hc]
    refine ⟨rfl, rfl, ?_⟩
    intro ha
    rw [show sustainedAfter (updateTracker false st.closedEyeStart pn) pn = false from rfl]
      at ha
    simp only [Bool.false_or] at ha
    simp [ha]
  · intro hmar
    have hc : isYawningOf frame st.calib = false := by rw [isYawningOf, hmar]
    rw [hc]
    refine ⟨rfl, rfl, ?_⟩
    intro ha
    rw [show sustainedAfter (updateTracker false st.openMouthStart pn) pn = false from rfl]
      at ha
    simp only [Bool.or_false] at ha
    simp [ha]

/-- Witness for C7's amended theorem on the broken-mouth frame. -/
theorem nonfinite_degrades_active_witness :
    (⟨false, 0, none, none, resetCalibration⟩ : DetectorState).calibrating = false ∧
    _calcMARFromMouth brokenMouthFrame MOUTH_POINTS = none ∧
    (onResults ⟨false, 0, none, none, resetCalibration⟩
      (some brokenMouthFrame) 0 0).2.mouthStatus = "Active" := by
  refine ⟨rfl, brokenMouthFrame_MAR, ?_⟩
  exact ((nonfinite_degrades_active ⟨false, 0, none, none, resetCalibration⟩
    brokenMouthFrame 0 0 rfl).2 brokenMouthFrame_MAR).2.1

/-- Counterexample for C9: a face frame processed 5000 ms after session
start — elapsed time well past the 2000 ms window — is still fed to the
Calibration Accumulator and emits Calibrating while the flag is set, rather
than being handled in the detection phase. -/
theorem calibration_window_lag_cex :
    (5000 : ℝ) - (⟨true, 0, none, none, resetCalibration⟩ : DetectorState).calibrationStart ≥
      CALIBRATION_WINDOW_MS ∧
    (onResults ⟨true, 0, none, none, resetCalibration⟩ (some testFrame) 5000 0).2 =
      ⟨"Calibrating", "Calibrating", false⟩ ∧
    (onResults ⟨true, 0, none, none, resetCalibration⟩ (some testFrame) 5000 0).1.calib =
      accumulateCalibration testFrame resetCalibration := by
  refine ⟨?_, ?_, ?_⟩
  · show (5000 : ℝ) - 0 ≥ CALIBRATION_WINDOW_MS
    rw [CALIBRATION_WINDOW_MS]
    norm_num
  · rw [onResults_calibrating _ _ _ _ rfl]
  · rw [onResults_calibrating _ _ _ _ rfl]

/-- C9 (amended): face frames are phase-routed by the calibrating flag, which
lags the elapsed-time window by one frame: while the flag is set the frame
is fed to the accumulator and Calibrating / Calibrating / no-alert is
emitted, and the flag is cleared (affecting only subsequent frames) exactly
when this frame's elapsed time strictly exceeds CALIBRATION_WINDOW_MS; with
the flag clear the frame is handled in the detection phase, which never
emits Calibrating and leaves the calibration state untouched. -/
theorem calibration_flag_spec (st : DetectorState) (frame : FaceLandmarks) (dn pn : ℝ) :
    (st.calibrating = true →
      (onResults st (some frame) dn pn).2 = ⟨"Calibrating", "Calibrating", false⟩ ∧
      (onResults st (some frame) dn pn).1.calib = accumulateCalibration frame st.calib ∧
      ((onResults st (some frame) dn pn).1.calibrating = false ↔
        dn - st.calibrationStart > CALIBRATION_WINDOW_MS)) ∧
    (st.calibrating = false →
      (onResults st (some frame) dn pn).2.eyeStatus ≠ "Calibrating" ∧
      (onResults st (some frame) dn pn).2.mouthStatus ≠ "Calibrating" ∧
      (onResults st (some frame) dn pn).1.calib = st.calib) := by
  constructor
  · intro h
    rw [onResults_calibrating st frame dn pn h]
    refine ⟨rfl, rfl, ?_⟩
    show (!decide (dn - st.calibrationStart > CALIBRATION_WINDOW_MS)) = false ↔
      dn - st.calibrationStart > CALIBRATION_WINDOW_MS
    simp
  · intro h
    rw [onResults_detection st frame dn pn h]
    refine ⟨?_, ?_, rfl⟩
    · cases hsb : sustainedAfter
        (updateTracker (eyesClosedOf frame st.calib) st.closedEyeStart pn) pn <;> simp [hsb]
    · cases hsb : sustainedAfter
        (updateTracker (isYawningOf frame st.calib) st.openMouthStart pn) pn <;> simp [hsb]

/-- Witness for C9's amended theorem at a concrete calibrating state. -/
theorem calibration_flag_spec_witness :
    (⟨true, 0, none, none, resetCalibration⟩ : DetectorState).calibrating = true ∧
    (onResults ⟨true, 0, none, none, resetCalibration⟩ (some testFrame) 100 0).2 =
      ⟨"Calibrating", "Calibrating", false⟩ :=
  ⟨rfl, ((calibration_flag_spec ⟨true, 0, none, none, resetCalibration⟩ testFrame 100 0).1
    rfl).1⟩
